import Mathlib

/-
Shallow embedding of the shelll backend core (src/src-tauri/src/main.rs):
the PTY session registry with its write/resize/close operations, the
per-session reader pump, the focus monitor, and the platform inspector.
Locks are modelled as state plus an explicit poisoned flag where the code
has a distinct error branch for a poisoned lock; the results of underlying
I/O calls whose Result the code discards are modelled as oracle booleans
recorded in an operation log.
-/

/-- Payload of the pty-output event: session id plus the raw bytes read. -/
structure PtyOutputPayload where
  session_id : String
  data : List Nat
deriving Repr, DecidableEq

/-- Entry returned by the running-applications query. -/
structure RunningApp where
  name : String
  bundle_id : String
deriving Repr, DecidableEq

/-- Payload of the app-focus-changed event. -/
structure FocusChangedPayload where
  focused_app : String
  is_target_focused : Bool
  is_self_focused : Bool
deriving Repr, DecidableEq

/-- Geometry passed to openpty and resize. -/
structure PtySize where
  rows : Nat
  cols : Nat
  pixel_width : Nat
  pixel_height : Nat
deriving Repr, DecidableEq

/-- One call issued on the writer handle of a session. The boolean records
the success of the underlying I/O call; the code discards that result. -/
inductive WriterOp where
  | writeAll (bytes : List Nat) (ok : Bool)
  | flush (ok : Bool)
deriving Repr, DecidableEq

/-- The mutex-guarded writer side of a session: a log of the calls made on
it, plus whether its lock is poisoned. -/
structure WriterHandle where
  ops : List WriterOp
  poisoned : Bool
deriving Repr, DecidableEq

/-- The mutex-guarded master (controller) side of a session: its current
geometry, plus whether its lock is poisoned. -/
structure MasterHandle where
  rows : Nat
  cols : Nat
  poisoned : Bool
deriving Repr, DecidableEq

/-- A live session as stored in the registry. -/
structure PtySession where
  writer : WriterHandle
  master : MasterHandle
deriving Repr, DecidableEq

/-- The shared application state: the session map guarded by one mutex. -/
structure AppState where
  sessions : List (String × PtySession)
  sessionsPoisoned : Bool
deriving Repr, DecidableEq

/-- HashMap.get on the registry. -/
def lookupSession : List (String × PtySession) → String → Option PtySession
  | [], _ => none
  | kv :: rest, id => if kv.1 == id then some kv.2 else lookupSession rest id

/-- Replace the value stored under an existing key. -/
def updateSession (m : List (String × PtySession)) (id : String) (s : PtySession) :
    List (String × PtySession) :=
  m.map (fun kv => if kv.1 == id then (kv.1, s) else kv)

/-- HashMap.insert: replace the entry if present, else add one. -/
def insertSession (m : List (String × PtySession)) (id : String) (s : PtySession) :
    List (String × PtySession) :=
  if (lookupSession m id).isSome then updateSession m id s else (id, s) :: m

/-- HashMap.remove. -/
def removeSession (m : List (String × PtySession)) (id : String) :
    List (String × PtySession) :=
  m.filter (fun kv => !(kv.1 == id))

/-- write_to_pty: lock the registry (error "Lock poisoned" on failure), look
the session up; if present and its writer lock is healthy, call write_all
with exactly the given bytes and then flush, discarding both I/O results
(writeOk and flushOk are those discarded results); always return ok. -/
def write_to_pty (st : AppState) (session_id : String) (data : List Nat)
    (writeOk flushOk : Bool) : Except String Unit × AppState :=
  if st.sessionsPoisoned then (Except.error "Lock poisoned", st)
  else
    match lookupSession st.sessions session_id with
    | some session =>
        if session.writer.poisoned then (Except.ok (), st)
        else
          let w := { session.writer with
                     ops := session.writer.ops ++
                       [WriterOp.writeAll data writeOk, WriterOp.flush flushOk] }
          let m := updateSession st.sessions session_id { session with writer := w }
          (Except.ok (), { st with sessions := m })
    | none => (Except.ok (), st)

/-- resize_pty: lock the registry (error "Lock poisoned" on failure), look
the session up; if present and its master lock is healthy, request the new
geometry, discarding the result (resizeOk is the discarded outcome of the
underlying resize); always return ok. -/
def resize_pty (st : AppState) (session_id : String) (rows cols : Nat)
    (resizeOk : Bool) : Except String Unit × AppState :=
  if st.sessionsPoisoned then (Except.error "Lock poisoned", st)
  else
    match lookupSession st.sessions session_id with
    | some session =>
        if session.master.poisoned then (Except.ok (), st)
        else if resizeOk then
          let ma := { session.master with rows := rows, cols := cols }
          let m := updateSession st.sessions session_id { session with master := ma }
          (Except.ok (), { st with sessions := m })
        else (Except.ok (), st)
    | none => (Except.ok (), st)

/-- close_pty_session: lock the registry (error "Lock poisoned" on failure)
and remove the entry; always return ok. -/
def close_pty_session (st : AppState) (session_id : String) :
    Except String Unit × AppState :=
  if st.sessionsPoisoned then (Except.error "Lock poisoned", st)
  else (Except.ok (), { st with sessions := removeSession st.sessions session_id })

/-- The CommandBuilder the session spawner constructs. -/
structure CommandSpec where
  program : String
  envTERM : String
  args : List String
deriving Repr, DecidableEq

/-- The fixed shell command: zsh with TERM=xterm-256color and an argument
list that suppresses the prompt-continuation marker. -/
def shellCommand : CommandSpec :=
  { program := "zsh"
    envTERM := "xterm-256color"
    args := ["-c", "export PROMPT_EOL_MARK=\x27\x27; exec zsh"] }

/-- The fixed geometry passed to openpty. -/
def initialPtySize : PtySize :=
  { rows := 30, cols := 100, pixel_width := 0, pixel_height := 0 }

/-- Calls create_pty_session issues against the PTY system, in order. -/
inductive PtyCall where
  | openpty (size : PtySize)
  | cloneReader
  | takeWriter
  | spawnCommand (cmd : CommandSpec)
deriving Repr, DecidableEq

/-- Oracle for the fallible PTY-system steps: some msg means that step
fails with that message, none means it succeeds. -/
structure PtyEnv where
  openptyErr : Option String
  cloneReaderErr : Option String
  takeWriterErr : Option String
  spawnErr : Option String
deriving Repr, DecidableEq

/-- The session stored on successful creation: empty writer log, healthy
locks, the initial geometry. -/
def freshSession : PtySession :=
  { writer := { ops := [], poisoned := false }
    master := { rows := 30, cols := 100, poisoned := false } }

/-- create_pty_session: openpty at the fixed size, clone the reader, take
the writer, spawn the fixed shell command; each failure aborts with a
descriptive error before any registry mutation; on success insert the new
session and return its id. The third component is the trace of PTY-system
calls issued. -/
def create_pty_session (env : PtyEnv) (session_id : String) (st : AppState) :
    Except String String × AppState × List PtyCall :=
  match env.openptyErr with
  | some e =>
      (Except.error ("Failed to create PTY: " ++ e), st,
       [PtyCall.openpty initialPtySize])
  | none =>
    match env.cloneReaderErr with
    | some e =>
        (Except.error ("Failed to clone reader: " ++ e), st,
         [PtyCall.openpty initialPtySize, PtyCall.cloneReader])
    | none =>
      match env.takeWriterErr with
      | some e =>
          (Except.error ("Failed to take writer: " ++ e), st,
           [PtyCall.openpty initialPtySize, PtyCall.cloneReader, PtyCall.takeWriter])
      | none =>
        match env.spawnErr with
        | some e =>
            (Except.error ("Failed to spawn shell: " ++ e), st,
             [PtyCall.openpty initialPtySize, PtyCall.cloneReader,
              PtyCall.takeWriter, PtyCall.spawnCommand shellCommand])
        | none =>
            if st.sessionsPoisoned then
              (Except.error "Lock poisoned", st,
               [PtyCall.openpty initialPtySize, PtyCall.cloneReader,
                PtyCall.takeWriter, PtyCall.spawnCommand shellCommand])
            else
              (Except.ok session_id,
               { st with sessions := insertSession st.sessions session_id freshSession },
               [PtyCall.openpty initialPtySize, PtyCall.cloneReader,
                PtyCall.takeWriter, PtyCall.spawnCommand shellCommand])

/-- Outcome of one blocking read on the PTY output stream. -/
inductive ReadResult where
  | ok (bytes : List Nat)
  | ioError
deriving Repr, DecidableEq

/-- Size of the read buffer used by the reader pump. -/
def ptyReadBufSize : Nat := 4096

/-- The reader pump loop: on a nonzero read emit one event with the exact
bytes read, on a zero read (EOF) or a read error stop without emitting
anything further. -/
def readerPump (session_id : String) : List ReadResult → List PtyOutputPayload
  | [] => []
  | ReadResult.ok bytes :: rest =>
      if bytes.length > 0 then
        { session_id := session_id, data := bytes } :: readerPump session_id rest
      else []
  | ReadResult.ioError :: _ => []

/-- The hard-coded self names recognized by the focus monitor. -/
def isSelfApp (s : String) : Bool := s == "Shelll" || s == "shelll"

/-- One iteration of the focus-monitor loop body: frontmost is the sampled
frontmost-application name, target the value read from the target mutex at
this poll. Returns the new last-seen value and the event emitted, if any. -/
def monitorPoll (lastApp : Option String) (frontmost : Option String)
    (target : Option String) : Option String × Option FocusChangedPayload :=
  match frontmost with
  | none => (lastApp, none)
  | some current_app =>
      if lastApp == some current_app then (lastApp, none)
      else
        match target with
        | some target_name =>
            (some current_app,
             some { focused_app := current_app
                    is_target_focused := current_app == target_name
                    is_self_focused := isSelfApp current_app })
        | none => (some current_app, none)

/-- Run the monitor loop over a sequence of polls, each supplying the
sampled frontmost name and the target read at that poll; collect the
emitted events in order. -/
def monitorRun (lastApp : Option String) :
    List (Option String × Option String) → List FocusChangedPayload
  | [] => []
  | sample :: rest =>
      match monitorPoll lastApp sample.1 sample.2 with
      | (la, some ev) => ev :: monitorRun la rest
      | (la, none) => monitorRun la rest

/-- Focus-monitor control state: the active flag, the target mutex, and the
number of polling-loop threads that have been spawned and not yet exited. -/
structure MonitorSys where
  active : Bool
  target : Option String
  liveLoops : Nat
deriving Repr, DecidableEq

/-- start_focus_monitor: store the target, then, only if the active flag is
clear, set it and spawn a new polling loop. -/
def start_focus_monitor (s : MonitorSys) (target_app : String) : MonitorSys :=
  let s1 := { s with target := some target_app }
  if s1.active then s1
  else { s1 with active := true, liveLoops := s1.liveLoops + 1 }

/-- stop_focus_monitor: clear the active flag and the target. It does not
wait for the polling loop to exit. -/
def stop_focus_monitor (s : MonitorSys) : MonitorSys :=
  { s with active := false, target := none }

/-- Events of the monitor trace semantics: the two commands, and one live
polling loop reaching its while-condition check (where it exits when the
active flag is clear and otherwise keeps running). -/
inductive MonitorEvent where
  | cmdStart (target_app : String)
  | cmdStop
  | loopCheck
deriving Repr, DecidableEq

/-- One step of the monitor trace semantics. -/
def monitorStep (s : MonitorSys) : MonitorEvent → MonitorSys
  | MonitorEvent.cmdStart t => start_focus_monitor s t
  | MonitorEvent.cmdStop => stop_focus_monitor s
  | MonitorEvent.loopCheck =>
      if s.active then s else { s with liveLoops := s.liveLoops - 1 }

/-- Run a sequence of monitor events from a state. -/
def monitorTrace (s : MonitorSys) (evs : List MonitorEvent) : MonitorSys :=
  evs.foldl monitorStep s

/-- The initial monitor state of the process. -/
def initMonitor : MonitorSys := { active := false, target := none, liveLoops := 0 }

/-- Build platform selector. -/
inductive Platform where
  | macos
  | nonMacos
deriving Repr, DecidableEq

/-- Results the native (macOS) inspector would report; opaque oracle on the
platforms that have it, unused on the others. -/
structure NativeInspector where
  frontmost : Option String
  running : List RunningApp
deriving Repr, DecidableEq

/-- get_frontmost_app_name: the native query on macOS, None elsewhere. -/
def get_frontmost_app_name : Platform → NativeInspector → Option String
  | Platform.macos, native => native.frontmost
  | Platform.nonMacos, _ => none

/-- get_running_applications: the native query on macOS, empty elsewhere. -/
def get_running_applications : Platform → NativeInspector → List RunningApp
  | Platform.macos, native => native.running
  | Platform.nonMacos, _ => []

/-- The get_running_apps command: calls get_running_applications. -/
def get_running_apps (p : Platform) (native : NativeInspector) : List RunningApp :=
  get_running_applications p native

/-- The get_frontmost_app command: calls get_frontmost_app_name. -/
def get_frontmost_app (p : Platform) (native : NativeInspector) : Option String :=
  get_frontmost_app_name p native

/-- A healthy writer handle for concrete instances. -/
def demoWriter : WriterHandle := { ops := [], poisoned := false }

/-- A healthy master handle for concrete instances. -/
def demoMaster : MasterHandle := { rows := 30, cols := 100, poisoned := false }

/-- A healthy session for concrete instances. -/
def demoSession : PtySession := { writer := demoWriter, master := demoMaster }

/-- A session whose writer lock is poisoned, for concrete instances. -/
def demoPoisonedSession : PtySession :=
  { writer := { ops := [], poisoned := true }, master := demoMaster }

/-- A registry holding one healthy session under id s1. -/
def demoState : AppState := { sessions := [("s1", demoSession)], sessionsPoisoned := false }

/-- A registry holding one session with a poisoned writer lock under id p1. -/
def demoPoisonedState : AppState :=
  { sessions := [("p1", demoPoisonedSession)], sessionsPoisoned := false }

/- Registry lemmas shared by the session-controller theorems. -/

theorem lookupSession_updateSession_self (m : List (String × PtySession)) (id : String)
    (s : PtySession) (h : (lookupSession m id).isSome) :
    lookupSession (updateSession m id s) id = some s := by
  induction m with
  | nil => simp [lookupSession] at h
  | cons kv rest ih =>
      cases hk : (kv.1 == id) with
      | true => simp [updateSession, lookupSession, hk]
      | false =>
          have h2 : (lookupSession rest id).isSome := by
            simpa [lookupSession, hk] using h
          simpa [updateSession, lookupSession, hk] using ih h2

theorem lookupSession_updateSession_ne (m : List (String × PtySession)) (id k : String)
    (s : PtySession) (h : k ≠ id) :
    lookupSession (updateSession m id s) k = lookupSession m k := by
  induction m with
  | nil => simp [lookupSession, updateSession]
  | cons kv rest ih =>
      cases hk : (kv.1 == id) with
      | true =>
          have h1 : kv.1 = id := by simpa using hk
          have h2 : (kv.1 == k) = false := by
            subst h1
            simp only [beq_eq_false_iff_ne]
            exact Ne.symm h
          simpa [updateSession, lookupSession, hk, h2] using ih
      | false =>
          cases hkk : (kv.1 == k) with
          | true => simp [updateSession, lookupSession, hk, hkk]
          | false => simpa [updateSession, lookupSession, hk, hkk] using ih

theorem lookupSession_removeSession_self (m : List (String × PtySession)) (id : String) :
    lookupSession (removeSession m id) id = none := by
  induction m with
  | nil => simp [lookupSession, removeSession]
  | cons kv rest ih =>
      cases hk : (kv.1 == id) with
      | true => simpa [removeSession, List.filter, hk] using ih
      | false => simpa [removeSession, List.filter, lookupSession, hk] using ih

theorem lookupSession_removeSession_ne (m : List (String × PtySession)) (id k : String)
    (h : k ≠ id) :
    lookupSession (removeSession m id) k = lookupSession m k := by
  induction m with
  | nil => simp [lookupSession, removeSession]
  | cons kv rest ih =>
      cases hk : (kv.1 == id) with
      | true =>
          have h1 : kv.1 = id := by simpa using hk
          have h2 : (kv.1 == k) = false := by
            subst h1
            simp only [beq_eq_false_iff_ne]
            exact Ne.symm h
          simpa [removeSession, List.filter, lookupSession, hk, h2] using ih
      | false =>
          cases hkk : (kv.1 == k) with
          | true => simp [removeSession, List.filter, lookupSession, hk, hkk]
          | false => simpa [removeSession, List.filter, lookupSession, hk, hkk] using ih

theorem removeSession_absent (m : List (String × PtySession)) (id : String)
    (h : lookupSession m id = none) :
    removeSession m id = m := by
  induction m with
  | nil => simp [removeSession]
  | cons kv rest ih =>
      cases hk : (kv.1 == id) with
      | true => simp [lookupSession, hk] at h
      | false =>
          have h2 : lookupSession rest id = none := by
            simpa [lookupSession, hk] using h
          simpa [removeSession, List.filter, hk] using ih h2

/-- C8: resize_pty never reports an error: an absent id, a poisoned master
lock, or a failing underlying resize are all swallowed and the call
returns ok (the registry mutex itself being healthy). -/
theorem resize_pty_never_errors (st : AppState) (session_id : String) (rows cols : Nat)
    (resizeOk : Bool) (hp : st.sessionsPoisoned = false) :
    (resize_pty st session_id rows cols resizeOk).1 = Except.ok () := by
  cases h : lookupSession st.sessions session_id with
  | none => simp [resize_pty, hp, h]
  | some session =>
      by_cases hm : session.master.poisoned
      · simp [resize_pty, hp, h, hm]
      · cases resizeOk <;> simp [resize_pty, hp, h, hm]

theorem resize_pty_never_errors_witness :
    demoState.sessionsPoisoned = false ∧
    (resize_pty demoState "absent" 24 80 false).1 = Except.ok () ∧
    (resize_pty demoState "s1" 24 80 false).1 = Except.ok () :=
  ⟨rfl, resize_pty_never_errors demoState "absent" 24 80 false rfl,
   resize_pty_never_errors demoState "s1" 24 80 false rfl⟩

/-- C9: on a platform without a native inspector implementation, the
running-applications command returns the empty sequence and the
frontmost-app command returns none, regardless of what a native inspector
would report; both are plain values, not errors. -/
theorem nonMacos_inspector_empty (native : NativeInspector) :
    get_running_apps Platform.nonMacos native = [] ∧
    get_frontmost_app Platform.nonMacos native = none :=
  ⟨rfl, rfl⟩

theorem nonMacos_inspector_empty_witness :
    get_running_apps Platform.nonMacos
      { frontmost := some "Safari",
        running := [{ name := "Safari", bundle_id := "com.apple.Safari" }] } = [] ∧
    get_frontmost_app Platform.nonMacos
      { frontmost := some "Safari",
        running := [{ name := "Safari", bundle_id := "com.apple.Safari" }] } = none :=
  nonMacos_inspector_empty
    { frontmost := some "Safari",
      running := [{ name := "Safari", bundle_id := "com.apple.Safari" }] }

/-- C10: for a session present in the registry, write_to_pty returns ok
whatever the outcomes of the discarded write and flush calls are, and even
when the writer lock cannot be acquired: from the command interface these
failures are indistinguishable from a successful write. -/
theorem write_to_pty_swallows_io_failures (st : AppState) (session_id : String)
    (s : PtySession) (data : List Nat) (writeOk flushOk : Bool)
    (hp : st.sessionsPoisoned = false)
    (hs : lookupSession st.sessions session_id = some s) :
    (write_to_pty st session_id data writeOk flushOk).1 = Except.ok () := by
  by_cases hw : s.writer.poisoned
  · simp [write_to_pty, hp, hs, hw]
  · simp [write_to_pty, hp, hs, hw]

theorem write_to_pty_swallows_io_failures_witness :
    lookupSession demoPoisonedState.sessions "p1" = some demoPoisonedSession ∧
    (write_to_pty demoPoisonedState "p1" [10] false false).1 = Except.ok () := by
  have h := write_to_pty_swallows_io_failures demoPoisonedState "p1" demoPoisonedSession
    [10] false false rfl (by decide)
  exact ⟨by decide, h⟩

/-- C7: stop_focus_monitor clears the active flag and sets the target to
none, and a subsequent start yields a state holding exactly the newly
supplied target with the monitor active again. -/
theorem stop_focus_monitor_clears_target (s : MonitorSys) (t : String) :
    (stop_focus_monitor s).active = false ∧
    (stop_focus_monitor s).target = none ∧
    (start_focus_monitor (stop_focus_monitor s) t).target = some t ∧
    (start_focus_monitor (stop_focus_monitor s) t).active = true := by
  refine ⟨rfl, rfl, ?_, ?_⟩ <;> simp [start_focus_monitor, stop_focus_monitor]

theorem stop_focus_monitor_clears_target_witness :
    (stop_focus_monitor { active := true, target := some "Foo", liveLoops := 1 }).active = false ∧
    (stop_focus_monitor { active := true, target := some "Foo", liveLoops := 1 }).target = none ∧
    (start_focus_monitor
      (stop_focus_monitor { active := true, target := some "Foo", liveLoops := 1 })
      "Bar").target = some "Bar" ∧
    (start_focus_monitor
      (stop_focus_monitor { active := true, target := some "Foo", liveLoops := 1 })
      "Bar").active = true :=
  stop_focus_monitor_clears_target { active := true, target := some "Foo", liveLoops := 1 } "Bar"

/-- C6 counterexample: from the idle state, start A then stop then start B
leaves two live polling loops: the first loop has not yet reached its
while-condition check when the second start re-sets the flag and spawns a
new loop, and subsequent checks see the flag set, so both loops keep
running; this refutes at most one polling loop runs at a time. -/
theorem focus_monitor_two_loops_counterexample :
    (monitorTrace initMonitor
      [MonitorEvent.cmdStart "A", MonitorEvent.cmdStop, MonitorEvent.cmdStart "B"]).liveLoops = 2 ∧
    (monitorTrace initMonitor
      [MonitorEvent.cmdStart "A", MonitorEvent.cmdStop, MonitorEvent.cmdStart "B",
       MonitorEvent.loopCheck, MonitorEvent.loopCheck]).liveLoops = 2 ∧
    ¬ (monitorTrace initMonitor
      [MonitorEvent.cmdStart "A", MonitorEvent.cmdStop, MonitorEvent.cmdStart "B"]).liveLoops ≤ 1 := by
  refine ⟨rfl, rfl, by decide⟩

/-- C6 amended: start stores the target and spawns a new polling loop
exactly when the active flag is clear; when the flag is already set start
only updates the target and changes nothing else; stop clears the flag and
the target; a live loop exits at a check that sees the flag clear and
keeps running at a check that sees it set (so a loop spawned before a stop
can still be live when a later start spawns another). -/
theorem focus_monitor_state_machine (s : MonitorSys) (t : String) :
    (s.active = true → start_focus_monitor s t = { s with target := some t }) ∧
    (s.active = false → start_focus_monitor s t =
      { s with target := some t, active := true, liveLoops := s.liveLoops + 1 }) ∧
    stop_focus_monitor s = { s with active := false, target := none } ∧
    (s.active = false →
      monitorStep s MonitorEvent.loopCheck = { s with liveLoops := s.liveLoops - 1 }) ∧
    (s.active = true → monitorStep s MonitorEvent.loopCheck = s) := by
  refine ⟨?_, ?_, rfl, ?_, ?_⟩
  · intro h
    simp [start_focus_monitor, h]
  · intro h
    simp [start_focus_monitor, h]
  · intro h
    simp [monitorStep, stop_focus_monitor, h]
  · intro h
    simp [monitorStep, h]

theorem focus_monitor_state_machine_witness :
    ({ active := true, target := none, liveLoops := 1 } : MonitorSys).active = true ∧
    start_focus_monitor { active := true, target := none, liveLoops := 1 } "Foo" =
      { active := true, target := some "Foo", liveLoops := 1 } :=
  ⟨rfl, (focus_monitor_state_machine { active := true, target := none, liveLoops := 1 } "Foo").1 rfl⟩

/-- C2: for a session present in the registry with a healthy writer lock,
write_to_pty returns ok, the session writer log is extended with exactly
one write_all call carrying the given bytes unchanged followed by one
flush call, and every other id of the registry maps to the same session as
before. -/
theorem write_to_pty_verbatim (st : AppState) (session_id : String) (s : PtySession)
    (data : List Nat) (writeOk flushOk : Bool)
    (hp : st.sessionsPoisoned = false)
    (hs : lookupSession st.sessions session_id = some s)
    (hw : s.writer.poisoned = false) :
    (write_to_pty st session_id data writeOk flushOk).1 = Except.ok () ∧
    lookupSession (write_to_pty st session_id data writeOk flushOk).2.sessions session_id =
      some { s with writer := { s.writer with
        ops := s.writer.ops ++ [WriterOp.writeAll data writeOk, WriterOp.flush flushOk] } } ∧
    ∀ k, k ≠ session_id →
      lookupSession (write_to_pty st session_id data writeOk flushOk).2.sessions k =
        lookupSession st.sessions k := by
  have hsome : (lookupSession st.sessions session_id).isSome := by simp [hs]
  refine ⟨?_, ?_, ?_⟩
  · simp [write_to_pty, hp, hs, hw]
  · have h2 := lookupSession_updateSession_self st.sessions session_id
      { s with writer := { s.writer with
        ops := s.writer.ops ++ [WriterOp.writeAll data writeOk, WriterOp.flush flushOk] } } hsome
    simpa [write_to_pty, hp, hs, hw] using h2
  · intro k hk
    have h3 := lookupSession_updateSession_ne st.sessions session_id k
      { s with writer := { s.writer with
        ops := s.writer.ops ++ [WriterOp.writeAll data writeOk, WriterOp.flush flushOk] } } hk
    simpa [write_to_pty, hp, hs, hw] using h3

theorem write_to_pty_verbatim_witness :
    lookupSession demoState.sessions "s1" = some demoSession ∧
    demoSession.writer.poisoned = false ∧
    (write_to_pty demoState "s1" [104, 105] true true).1 = Except.ok () ∧
    lookupSession (write_to_pty demoState "s1" [104, 105] true true).2.sessions "s1" =
      some { demoSession with writer := { demoSession.writer with
        ops := demoSession.writer.ops ++
          [WriterOp.writeAll [104, 105] true, WriterOp.flush true] } } := by
  have h := write_to_pty_verbatim demoState "s1" demoSession [104, 105] true true
    rfl (by decide) rfl
  exact ⟨by decide, rfl, h.1, h.2.1⟩

/-- C4: close returns ok and removes exactly the given id from the
registry; a subsequent write or close with that id, and in general a write
or close with any id absent from the registry, is a no-op returning ok,
not an error. -/
theorem close_removes_and_absent_ids_noop (st : AppState) (session_id : String)
    (hp : st.sessionsPoisoned = false) :
    (close_pty_session st session_id).1 = Except.ok () ∧
    lookupSession (close_pty_session st session_id).2.sessions session_id = none ∧
    (∀ k, k ≠ session_id →
      lookupSession (close_pty_session st session_id).2.sessions k =
        lookupSession st.sessions k) ∧
    (∀ data writeOk flushOk,
      write_to_pty (close_pty_session st session_id).2 session_id data writeOk flushOk =
        (Except.ok (), (close_pty_session st session_id).2)) ∧
    close_pty_session (close_pty_session st session_id).2 session_id =
      (Except.ok (), (close_pty_session st session_id).2) ∧
    (∀ st2 : AppState, ∀ id2 : String, st2.sessionsPoisoned = false →
      lookupSession st2.sessions id2 = none →
      (∀ data writeOk flushOk,
        write_to_pty st2 id2 data writeOk flushOk = (Except.ok (), st2)) ∧
      close_pty_session st2 id2 = (Except.ok (), st2)) := by
  have habs : ∀ st2 : AppState, ∀ id2 : String, st2.sessionsPoisoned = false →
      lookupSession st2.sessions id2 = none →
      (∀ data writeOk flushOk,
        write_to_pty st2 id2 data writeOk flushOk = (Except.ok (), st2)) ∧
      close_pty_session st2 id2 = (Except.ok (), st2) := by
    intro st2 id2 hp2 hn
    constructor
    · intro data writeOk flushOk
      simp [write_to_pty, hp2, hn]
    · simp [close_pty_session, hp2, removeSession_absent st2.sessions id2 hn]
      cases st2 with
      | mk sess pois => simp_all
  have hsess : (close_pty_session st session_id).2.sessions =
      removeSession st.sessions session_id := by
    simp [close_pty_session, hp]
  have hpois : (close_pty_session st session_id).2.sessionsPoisoned = false := by
    simp [close_pty_session, hp]
  have h2 : lookupSession (close_pty_session st session_id).2.sessions session_id = none := by
    rw [hsess]
    exact lookupSession_removeSession_self st.sessions session_id
  refine ⟨by simp [close_pty_session, hp], h2, ?_, ?_, ?_, habs⟩
  · intro k hk
    rw [hsess]
    exact lookupSession_removeSession_ne st.sessions session_id k hk
  · intro data writeOk flushOk
    exact (habs _ session_id hpois h2).1 data writeOk flushOk
  · exact (habs _ session_id hpois h2).2

theorem close_removes_and_absent_ids_noop_witness :
    demoState.sessionsPoisoned = false ∧
    (close_pty_session demoState "s1").1 = Except.ok () ∧
    lookupSession (close_pty_session demoState "s1").2.sessions "s1" = none ∧
    write_to_pty (close_pty_session demoState "s1").2 "s1" [104] true true =
      (Except.ok (), (close_pty_session demoState "s1").2) := by
  have h := close_removes_and_absent_ids_noop demoState "s1" rfl
  exact ⟨rfl, h.1, h.2.1, h.2.2.2.1 [104] true true⟩

/-- Shape of the reader-pump output on a stream of nonzero reads followed
by a stopper (EOF or error) and arbitrary further results. -/
theorem readerPump_eq_aux (sid : String) (chunks : List (List Nat))
    (stopper : ReadResult) (rest : List ReadResult)
    (hnz : ∀ c ∈ chunks, c ≠ [])
    (hstop : stopper = ReadResult.ok [] ∨ stopper = ReadResult.ioError) :
    readerPump sid (chunks.map ReadResult.ok ++ stopper :: rest) =
      chunks.map (fun c => { session_id := sid, data := c }) := by
  induction chunks with
  | nil =>
      rcases hstop with h | h <;> subst h <;> simp [readerPump]
  | cons c cs ih =>
      have hc : c ≠ [] := hnz c (List.mem_cons_self c cs)
      have hlen : c.length > 0 := List.length_pos.mpr hc
      have ih2 := ih (fun x hx => hnz x (List.mem_cons_of_mem c hx))
      simp [readerPump, hlen, ih2]

/-- C3: fed a stream of nonzero reads followed by a zero read (EOF) or a
read error, the reader pump emits exactly one PtyOutput event per nonzero
read, carrying the session id and the exact bytes of that read in read
order, and emits nothing at or after the stopper; the read buffer is 4096
bytes, so when every read fits it every emitted payload does too. -/
theorem readerPump_events (sid : String) (chunks : List (List Nat))
    (stopper : ReadResult) (rest : List ReadResult)
    (hnz : ∀ c ∈ chunks, c ≠ [])
    (hstop : stopper = ReadResult.ok [] ∨ stopper = ReadResult.ioError) :
    readerPump sid (chunks.map ReadResult.ok ++ stopper :: rest) =
      chunks.map (fun c => { session_id := sid, data := c }) ∧
    ptyReadBufSize = 4096 ∧
    ((∀ c ∈ chunks, c.length ≤ ptyReadBufSize) →
      ∀ p ∈ readerPump sid (chunks.map ReadResult.ok ++ stopper :: rest),
        p.data.length ≤ ptyReadBufSize) := by
  have heq := readerPump_eq_aux sid chunks stopper rest hnz hstop
  refine ⟨heq, rfl, ?_⟩
  intro hb p hp
  rw [heq] at hp
  rcases List.mem_map.mp hp with ⟨c, hc, rfl⟩
  exact hb c hc

theorem readerPump_events_witness :
    (∀ c ∈ [[7], [1, 2, 3]], c ≠ ([] : List Nat)) ∧
    readerPump "sess" ([[7], [1, 2, 3]].map ReadResult.ok ++
        ReadResult.ok [] :: [ReadResult.ioError]) =
      [[7], [1, 2, 3]].map (fun c => ({ session_id := "sess", data := c } : PtyOutputPayload)) :=
  ⟨by simp,
   (readerPump_events "sess" [[7], [1, 2, 3]] (ReadResult.ok []) [ReadResult.ioError]
     (by simp) (Or.inl rfl)).1⟩

/-- C1: a monitor poll emits an event exactly when the sampled frontmost
name differs from the last-seen value and a target is set at that poll;
the event carries the frontmost name, a target flag that holds exactly on
case-sensitive equality with the target, and the self flag; with no target
no event is emitted even on a change; the sample sequence A, A, B, A under
target Foo yields exactly the three events A, B, A. -/
theorem focus_monitor_events (la : Option String) (t app : String) :
    (la ≠ some app →
      monitorPoll la (some app) (some t) =
        (some app,
         some { focused_app := app, is_target_focused := app == t,
                is_self_focused := isSelfApp app })) ∧
    (la = some app → ∀ tgt, (monitorPoll la (some app) tgt).2 = none) ∧
    ((monitorPoll la (some app) none).2 = none) ∧
    ((app == t) = true ↔ app = t) ∧
    monitorRun none
      [(some "A", some "Foo"), (some "A", some "Foo"),
       (some "B", some "Foo"), (some "A", some "Foo")] =
      [{ focused_app := "A", is_target_focused := false, is_self_focused := false },
       { focused_app := "B", is_target_focused := false, is_self_focused := false },
       { focused_app := "A", is_target_focused := false, is_self_focused := false }] := by
  refine ⟨?_, ?_, ?_, beq_iff_eq, ?_⟩
  · intro h
    have hb : (la == some app) = false := beq_eq_false_iff_ne.mpr h
    simp [monitorPoll, hb]
  · intro h tgt
    subst h
    simp [monitorPoll]
  · by_cases hb : la == some app <;> simp [monitorPoll, hb]
  · decide

theorem focus_monitor_events_witness :
    ((none : Option String) ≠ some "Emacs") ∧
    monitorPoll none (some "Emacs") (some "Foo") =
      (some "Emacs",
       some { focused_app := "Emacs", is_target_focused := ("Emacs" == "Foo"),
              is_self_focused := isSelfApp "Emacs" }) :=
  ⟨by simp, (focus_monitor_events none "Foo" "Emacs").1 (by simp)⟩

/-- The PTY-call trace of create_pty_session is one of four prefixes of
the full call sequence, all starting with openpty at the fixed size and
ending, when a spawn occurs, with the fixed shell command. -/
theorem create_pty_session_trace (env : PtyEnv) (session_id : String) (st : AppState) :
    (create_pty_session env session_id st).2.2 = [PtyCall.openpty initialPtySize] ∨
    (create_pty_session env session_id st).2.2 =
      [PtyCall.openpty initialPtySize, PtyCall.cloneReader] ∨
    (create_pty_session env session_id st).2.2 =
      [PtyCall.openpty initialPtySize, PtyCall.cloneReader, PtyCall.takeWriter] ∨
    (create_pty_session env session_id st).2.2 =
      [PtyCall.openpty initialPtySize, PtyCall.cloneReader, PtyCall.takeWriter,
       PtyCall.spawnCommand shellCommand] := by
  cases ho : env.openptyErr with
  | some e => simp [create_pty_session, ho]
  | none =>
    cases hc : env.cloneReaderErr with
    | some e => simp [create_pty_session, ho, hc]
    | none =>
      cases ht : env.takeWriterErr with
      | some e => simp [create_pty_session, ho, hc, ht]
      | none =>
        cases hsp : env.spawnErr with
        | some e => simp [create_pty_session, ho, hc, ht, hsp]
        | none =>
            by_cases hp : st.sessionsPoisoned <;>
              simp [create_pty_session, ho, hc, ht, hsp, hp]

/-- C5: create_pty_session always opens the PTY at the fixed 30 by 100
geometry, any shell spawn it performs uses the fixed zsh command with the
fixed terminal type; a PTY-allocation failure returns the descriptive
error before any other call and the registry is unchanged, and a
shell-spawn failure returns the descriptive error with the registry
unchanged. -/
theorem create_pty_session_fixed_and_fail_clean (env : PtyEnv) (session_id : String)
    (st : AppState) :
    (create_pty_session env session_id st).2.2.head? =
      some (PtyCall.openpty initialPtySize) ∧
    initialPtySize.rows = 30 ∧ initialPtySize.cols = 100 ∧
    shellCommand.program = "zsh" ∧ shellCommand.envTERM = "xterm-256color" ∧
    (∀ cmd, PtyCall.spawnCommand cmd ∈ (create_pty_session env session_id st).2.2 →
      cmd = shellCommand) ∧
    (∀ e, env.openptyErr = some e →
      create_pty_session env session_id st =
        (Except.error ("Failed to create PTY: " ++ e), st,
         [PtyCall.openpty initialPtySize])) ∧
    (∀ e, env.openptyErr = none → env.cloneReaderErr = none → env.takeWriterErr = none →
      env.spawnErr = some e →
      (create_pty_session env session_id st).1 =
        Except.error ("Failed to spawn shell: " ++ e) ∧
      (create_pty_session env session_id st).2.1 = st) := by
  refine ⟨?_, rfl, rfl, rfl, rfl, ?_, ?_, ?_⟩
  · rcases create_pty_session_trace env session_id st with h | h | h | h <;> simp [h]
  · intro cmd hm
    rcases create_pty_session_trace env session_id st with h | h | h | h <;>
      rw [h] at hm <;> simp at hm
    exact hm
  · intro e he
    simp [create_pty_session, he]
  · intro e h1 h2 h3 h4
    constructor <;> simp [create_pty_session, h1, h2, h3, h4]

theorem create_pty_session_fixed_and_fail_clean_witness :
    ({ openptyErr := none, cloneReaderErr := none, takeWriterErr := none,
       spawnErr := some "boom" } : PtyEnv).spawnErr = some "boom" ∧
    (create_pty_session
      { openptyErr := none, cloneReaderErr := none, takeWriterErr := none,
        spawnErr := some "boom" } "id0" demoState).1 =
      Except.error ("Failed to spawn shell: " ++ "boom") ∧
    (create_pty_session
      { openptyErr := none, cloneReaderErr := none, takeWriterErr := none,
        spawnErr := some "boom" } "id0" demoState).2.1 = demoState := by
  have h := create_pty_session_fixed_and_fail_clean
    { openptyErr := none, cloneReaderErr := none, takeWriterErr := none,
      spawnErr := some "boom" } "id0" demoState
  have h8 := h.2.2.2.2.2.2.2 "boom" rfl rfl rfl rfl
  exact ⟨rfl, h8.1, h8.2⟩
